import Mathlib

/-!
Shallow embedding of the duplicate-detection and validation core of the
revitron-ui-enhancement-framework repository.

Embedded source files:
* `src/src/validation/validation_engine.py` (ValidationEngine and helpers)
* `src/src/research/api_capability_mapper.py` (CapabilityMapper duplicate
  detection database and duplicate check)

Modelling conventions:
* Python floats are modelled as `ℚ` (all arithmetic in the embedded code is
  exact on rationals: sums, divisions by constants, min/max).
* Python dicts used as records (`suggestion.get('name', '')`, ...) are
  modelled as structures whose fields carry the `.get` defaults.
* Python strings are Lean `String`; `str.lower()` is `String.toLower`,
  `str.split()` is splitting on whitespace and discarding empty pieces,
  `a in b` (substring test) is infix containment of the character lists.
  Numeric string formatting (`f"{x:.1%}"` etc.) is abstracted by `toString`,
  which keeps messages injective in the underlying value.
* Raised exceptions are modelled with `Except PyErr`; `AttributeError`
  (raised when a method that is defined nowhere in the class is accessed)
  and `ValidationError` are the two kinds that can occur in the embedded
  fragment.
-/

/-- Python `str.lower()`, implemented structurally on the character list so
that it computes by kernel reduction (the core `String.toLower` is defined by
recursion on byte positions and does not reduce definitionally). -/
def lowerStr (s : String) : String :=
  ⟨s.data.map Char.toLower⟩

/-- Helper for `pySplit`: walks the character list accumulating the current
word (in reverse); whitespace runs separate words and produce no empty
pieces, exactly the semantics of Python `str.split()` with no argument. -/
def pySplitAux : List Char → List Char → List String
  | [], cur => if cur = [] then [] else [String.mk cur.reverse]
  | c :: rest, cur =>
    if c.isWhitespace then
      if cur = [] then pySplitAux rest []
      else String.mk cur.reverse :: pySplitAux rest []
    else pySplitAux rest (c :: cur)

/-- Python `str.split()` with no separator: split on whitespace runs,
discarding empty pieces. -/
def pySplit (s : String) : List String :=
  pySplitAux s.data []

/-- Python `str.replace(c, r)` for a single-character pattern, implemented
structurally on the character list. -/
def pyReplaceChar (s : String) (c : Char) (r : String) : String :=
  ⟨(s.data.map (fun x => if x = c then r.data else [x])).flatten⟩

/-- Token set of a string: `set(text.lower().split())` in the Python source. -/
def tokens (text : String) : Finset String :=
  (pySplit (lowerStr text)).toFinset

/-- Embedding of `_calculate_text_similarity` (defined identically, line for
line, in both `validation_engine.py` lines 372-383 and
`api_capability_mapper.py` lines 517-528): word-set Jaccard similarity. -/
def calculateTextSimilarity (text1 text2 : String) : ℚ :=
  let words1 := tokens text1
  let words2 := tokens text2
  if words1 = ∅ ∨ words2 = ∅ then 0
  else
    let inter := words1 ∩ words2
    let uni := words1 ∪ words2
    if uni = ∅ then 0 else (inter.card : ℚ) / (uni.card : ℚ)

/-- Python `needle in haystack` for strings: substring containment (an empty
needle is contained in everything). -/
def pySubstr (needle haystack : String) : Bool :=
  decide (List.IsInfix needle.data haystack.data)

/-- Python `max(a, b)` on two numbers, written with an explicit comparison so
that it computes by kernel reduction (the Mathlib lattice `max` on `ℚ` does
not). -/
def pyMax (a b : ℚ) : ℚ := if a < b then b else a

/-- Python `min(a, b)` on two numbers, written with an explicit comparison. -/
def pyMin (a b : ℚ) : ℚ := if b < a then b else a

/-- Maximum of a nonempty list accumulated from its head; helper for the
embedding of Python `max(xs)`. -/
def pyListMax : ℚ → List ℚ → ℚ
  | a, [] => a
  | a, b :: t => pyListMax (pyMax a b) t

/-- Embedding of `max(xs) if xs else 0.0` (validation_engine.py line 305). -/
def maxOrZero : List ℚ → ℚ
  | [] => 0
  | a :: t => pyListMax a t

/-- `ValidationStatus` enum (validation_engine.py lines 27-32). -/
inductive ValidationStatus
  | pending
  | passed
  | failed
  | requiresReview
deriving DecidableEq, Repr

/-- `ValidationCriteria` enum (validation_engine.py lines 35-43), in source
declaration order. -/
inductive ValidationCriteria
  | technicalFeasibility
  | duplicateCheck
  | aecValue
  | implementationComplexity
  | apiCompatibility
  | innovationScore
  | resourceRequirements
deriving DecidableEq, Repr

/-- Iteration order of `for criteria in ValidationCriteria` — Python `Enum`
iterates in declaration order. -/
def allCriteria : List ValidationCriteria :=
  [.technicalFeasibility, .duplicateCheck, .aecValue, .implementationComplexity,
   .apiCompatibility, .innovationScore, .resourceRequirements]

/-- A suggestion dict as read by the validation engine: fields carry the
`dict.get` defaults used by the source (`''` for strings, `None`-like absence
for `id`, which falls back to `suggestion_{i}` in the orchestration loop). -/
structure Suggestion where
  id : Option String := none
  name : String := ""
  description : String := ""
  category : String := ""
deriving DecidableEq, Repr

/-- An implementation-spec dict as read by `_validate_technical_feasibility`
(validation_engine.py lines 236-241), with the `dict.get` defaults. -/
structure ImplementationSpec where
  api_requirements : List String := []
  external_dependencies : List String := []
  revit_compatibility_score : ℚ := 0
  effort_estimate : ℚ := 0
deriving DecidableEq, Repr

/-- An entry of the `existing_functions_db` list read by
`_validate_duplicate_check` via `existing_func.get('name', ...)` and
`existing_func.get('description', ...)`. -/
structure ExistingFunc where
  name : String := ""
  description : String := ""
deriving DecidableEq, Repr

/-- `ValidationResult` dataclass (validation_engine.py lines 46-56). The
`details` free-text field and the wall-clock `validation_timestamp` are
omitted: no embedded claim observes them. -/
structure ValidationResult where
  suggestion_id : String
  criteria : ValidationCriteria
  status : ValidationStatus
  score : ℚ
  recommendations : List String := []
  blocking_issues : List String := []
deriving DecidableEq, Repr

/-- Exceptions that can arise in the embedded fragment. -/
inductive PyErr
  | attributeError (msg : String)
  | validationError (msg : String)
deriving DecidableEq, Repr

/-- `str(e)` for the embedded exceptions. -/
def PyErr.message : PyErr → String
  | .attributeError m => m
  | .validationError m => m

/-- Embedding of `_validate_technical_feasibility` (validation_engine.py
lines 230-273). The threshold `0.8` is `minimum_thresholds[TECHNICAL_FEASIBILITY]`
set in `__init__`. -/
def validateTechnicalFeasibility (_suggestion : Suggestion)
    (implementation_spec : ImplementationSpec) (suggestion_id : String) :
    ValidationResult :=
  let api_dependencies : ℚ := implementation_spec.api_requirements.length
  let external_dependencies : ℚ := implementation_spec.external_dependencies.length
  let api_score := pyMin 1 ((10 - api_dependencies) / 10)
  let dependency_score := pyMin 1 ((5 - external_dependencies) / 5)
  let compatibility_score := implementation_spec.revit_compatibility_score
  let effort_score := pyMin 1 ((100 - implementation_spec.effort_estimate) / 100)
  let overall_score := (api_score + dependency_score + compatibility_score + effort_score) / 4
  let status := if overall_score ≥ 8/10 then ValidationStatus.passed else ValidationStatus.failed
  let recommendations :=
    (if api_score < 7/10 then ["Consider reducing API dependencies for better feasibility"] else []) ++
    (if dependency_score < 7/10 then ["Minimize external dependencies for simpler implementation"] else []) ++
    (if effort_score < 6/10 then ["Break down into smaller, more manageable components"] else [])
  { suggestion_id := suggestion_id
    criteria := ValidationCriteria.technicalFeasibility
    status := status
    score := overall_score
    recommendations := recommendations }

/-- Per-existing-function similarity computed inside the loop of
`_validate_duplicate_check` (validation_engine.py lines 288-298):
average of name similarity and description similarity. -/
def overallSimilarity (suggestion : Suggestion) (existing_func : ExistingFunc) : ℚ :=
  (calculateTextSimilarity (lowerStr suggestion.name) (lowerStr existing_func.name)
   + calculateTextSimilarity (lowerStr suggestion.description) (lowerStr existing_func.description)) / 2

/-- Embedding of `_validate_duplicate_check` (validation_engine.py lines
275-318). The `existing_functions` argument stands for
`getattr(self, 'existing_functions_db', [])` (line 280). -/
def validateDuplicateCheck (existing_functions : List ExistingFunc)
    (suggestion : Suggestion) (suggestion_id : String) : ValidationResult :=
  let similarity_scores := existing_functions.map (overallSimilarity suggestion)
  let duplicates_found :=
    (existing_functions.filter (fun f => overallSimilarity suggestion f > 8/10)).map
      (fun f => f.name)
  let max_similarity := maxOrZero similarity_scores
  let score := pyMax 0 (1 - max_similarity)
  let status := if score ≥ 1 then ValidationStatus.passed else ValidationStatus.failed
  { suggestion_id := suggestion_id
    criteria := ValidationCriteria.duplicateCheck
    status := status
    score := score
    blocking_issues := duplicates_found.map (fun d => "Duplicate of: " ++ d) }

/-- Workflow categories list of `_validate_aec_value` (lines 324-327). -/
def workflowCategories : List String :=
  ["design_optimization", "documentation_automation", "quality_control",
   "coordination", "analysis", "compliance", "productivity"]

/-- Industry keywords list of `_validate_aec_value` (line 342). -/
def industryKeywords : List String :=
  ["bim", "revit", "architectural", "engineering", "construction", "aec"]

/-- Problem indicators list of `_validate_aec_value` (line 346). -/
def problemIndicators : List String :=
  ["optimize", "automate", "improve", "enhance", "streamline", "coordinate"]

/-- Embedding of `_validate_aec_value` (validation_engine.py lines 320-370).
The threshold `0.7` is `minimum_thresholds[AEC_VALUE]`. -/
def validateAecValue (suggestion : Suggestion) (suggestion_id : String) :
    ValidationResult :=
  let category := lowerStr suggestion.category
  let description := lowerStr suggestion.description
  let matched_workflows := workflowCategories.filter (fun w =>
    pySubstr (pyReplaceChar w (Char.ofNat 95) " ") description || pySubstr (pyReplaceChar w (Char.ofNat 95) " ") category)
  let workflow_relevance : ℚ := (matched_workflows.length : ℚ) * (2/10)
  let keyword_relevance : ℚ :=
    ((industryKeywords.countP (fun k => pySubstr k description)) : ℚ) / (industryKeywords.length : ℚ)
  let problem_solving_score : ℚ :=
    ((problemIndicators.countP (fun k => pySubstr k description)) : ℚ) / (problemIndicators.length : ℚ)
  let overall_score := pyMin 1 ((workflow_relevance + keyword_relevance + problem_solving_score) / 3)
  let status := if overall_score ≥ 7/10 then ValidationStatus.passed else ValidationStatus.failed
  let recommendations :=
    (if workflow_relevance < 4/10 then ["Clarify relevance to specific AEC workflows"] else []) ++
    (if problem_solving_score < 3/10 then ["Better articulate the problem this solves"] else [])
  { suggestion_id := suggestion_id
    criteria := ValidationCriteria.aecValue
    status := status
    score := overall_score
    recommendations := recommendations }

/-- Message of the `AttributeError` raised when Python evaluates
`self.<m>` for a method `m` that is defined nowhere in the class. -/
def missingMethodMsg (m : String) : String :=
  "ValidationEngine object has no attribute " ++ m

/-- Embedding of `_validate_single_criterion` (validation_engine.py lines
193-228). The dispatch targets for `IMPLEMENTATION_COMPLEXITY`,
`API_COMPATIBILITY`, `INNOVATION_SCORE` and `RESOURCE_REQUIREMENTS`
(`_validate_implementation_complexity`, `_validate_api_compatibility`,
`_validate_innovation_score`, `_validate_resource_requirements`) are defined
nowhere in `ValidationEngine` nor anywhere else in the repository, so in
Python evaluating the attribute raises `AttributeError`; those branches are
embedded as errors. -/
def validateSingleCriterion (existing_functions_db : List ExistingFunc)
    (suggestion : Suggestion) (implementation_spec : ImplementationSpec)
    (criteria : ValidationCriteria) (suggestion_id : String) :
    Except PyErr ValidationResult :=
  match criteria with
  | .technicalFeasibility =>
      .ok (validateTechnicalFeasibility suggestion implementation_spec suggestion_id)
  | .duplicateCheck =>
      .ok (validateDuplicateCheck existing_functions_db suggestion suggestion_id)
  | .aecValue =>
      .ok (validateAecValue suggestion suggestion_id)
  | .implementationComplexity =>
      .error (.attributeError (missingMethodMsg "_validate_implementation_complexity"))
  | .apiCompatibility =>
      .error (.attributeError (missingMethodMsg "_validate_api_compatibility"))
  | .innovationScore =>
      .error (.attributeError (missingMethodMsg "_validate_innovation_score"))
  | .resourceRequirements =>
      .error (.attributeError (missingMethodMsg "_validate_resource_requirements"))

/-- Engine state: the mutable attributes of `ValidationEngine` observable
by the embedded claims. `validation_results` is set to `[]` in `__init__`
(line 93) and only ever appended to. `existing_functions_db` is read at line
280 through `getattr(self, 'existing_functions_db', [])` and is assigned by
no code anywhere in the repository, so on every actual engine it is the
default `[]`; it is kept as a field so that statements can quantify over it.
The `coverage_tracker` dict is omitted: it is only consumed by
`_verify_coverage_completeness`, whose return value is never used (line 169
assigns it to a dead local). -/
structure EngineState where
  validation_results : List ValidationResult := []
  existing_functions_db : List ExistingFunc := []
deriving DecidableEq, Repr

/-- State of a freshly constructed `ValidationEngine` (lines 92-94). -/
def initState : EngineState := {}

/-- `ComprehensiveValidationReport` dataclass (validation_engine.py lines
59-71). `summary_metrics` keeps the dict as an association list in the
insertion order of the source loop. -/
structure ComprehensiveValidationReport where
  total_suggestions : Nat
  validation_coverage : ℚ
  overall_quality_score : ℚ
  passed_suggestions : Nat
  failed_suggestions : Nat
  requires_review : Nat
  validation_results : List ValidationResult
  summary_metrics : List (ValidationCriteria × ℚ)
  recommendations : List String
  critical_issues : List String
deriving DecidableEq, Repr

/-- Embedding of `_generate_comprehensive_report` (validation_engine.py lines
406-455). It reads `self.validation_results` — the engine-lifetime list —
not merely the current batch. `list(set(critical_issues))` is modelled by
`List.dedup` (Python set iteration order is unspecified; claims do not
observe this field). -/
def generateComprehensiveReport (st : EngineState) (suggestions : List Suggestion)
    (completed required : Nat) : ComprehensiveValidationReport :=
  let results := st.validation_results
  let validation_coverage : ℚ := if required > 0 then (completed : ℚ) / (required : ℚ) else 0
  let passed_count := (results.filter (fun r => r.status == ValidationStatus.passed)).length
  let failed_count := (results.filter (fun r => r.status == ValidationStatus.failed)).length
  let review_count := (results.filter (fun r => r.status == ValidationStatus.requiresReview)).length
  let total_score := (results.map (fun r => r.score)).sum
  let overall_quality_score := if results ≠ [] then total_score / (results.length : ℚ) else 0
  let summary_metrics := allCriteria.filterMap (fun c =>
    let criteria_results := results.filter (fun r => r.criteria == c)
    if criteria_results.length ≠ 0 then
      some (c, (criteria_results.map (fun r => r.score)).sum / (criteria_results.length : ℚ))
    else none)
  let recommendations :=
    ["Validation coverage achieved: " ++ toString validation_coverage,
     "Overall quality score: " ++ toString overall_quality_score ++ "/1.0",
     "Suggestions requiring attention: " ++ toString (failed_count + review_count)]
  let critical_issues := (results.foldl (fun acc r =>
      if r.status == ValidationStatus.failed && r.blocking_issues != [] then
        acc ++ r.blocking_issues
      else acc) []).dedup
  { total_suggestions := suggestions.length
    validation_coverage := validation_coverage
    overall_quality_score := overall_quality_score
    passed_suggestions := passed_count
    failed_suggestions := failed_count
    requires_review := review_count
    validation_results := results
    summary_metrics := summary_metrics
    recommendations := recommendations
    critical_issues := critical_issues }

/-- The inner `for criteria in ValidationCriteria` loop of
`validate_comprehensive_coverage` (lines 154-166): evaluates each criterion in
order, appends each result to the accumulated `validation_results` and counts
`validations_completed`; an exception stops the loop with the results
appended so far. -/
def runCriteria (db : List ExistingFunc) (s : Suggestion)
    (spec : ImplementationSpec) (sid : String) :
    List ValidationResult → Nat → List ValidationCriteria →
    List ValidationResult × Nat × Option PyErr
  | acc, completed, [] => (acc, completed, none)
  | acc, completed, c :: rest =>
    match validateSingleCriterion db s spec c sid with
    | .ok r => runCriteria db s spec sid (acc ++ [r]) (completed + 1) rest
    | .error e => (acc, completed, some e)

/-- The outer `for i, suggestion in enumerate(suggestions)` loop of
`validate_comprehensive_coverage` (lines 144-166): each suggestion gets id
`suggestion.get('id', f"suggestion_{i}")` and is validated against all
criteria; an exception stops the whole loop. -/
def runSuggestions (db : List ExistingFunc) :
    Nat → List ValidationResult → Nat → List (Suggestion × ImplementationSpec) →
    List ValidationResult × Nat × Option PyErr
  | _, acc, completed, [] => (acc, completed, none)
  | i, acc, completed, (s, spec) :: rest =>
    let sid := s.id.getD ("suggestion_" ++ toString i)
    match runCriteria db s spec sid acc completed allCriteria with
    | (acc2, completed2, none) => runSuggestions db (i + 1) acc2 completed2 rest
    | (acc2, completed2, some e) => (acc2, completed2, some e)

/-- Embedding of `validate_comprehensive_coverage` (validation_engine.py
lines 109-191). The count-mismatch `ValidationError` (line 134) is raised
before the `try` block and so is not rewrapped; every exception escaping the
`try` body — including the coverage-shortfall `ValidationError` of lines
181-185 and any `AttributeError` from the criterion dispatch — is caught by
`except Exception` (line 189) and rewrapped as
`ValidationError(f"Comprehensive validation failed: {e}")`. The result pairs
the engine state after the call (the appends to `self.validation_results`
performed before an exception survive it) with the returned report or the
raised error. -/
def validateComprehensiveCoverage (st : EngineState)
    (suggestions : List Suggestion) (implementation_specs : List ImplementationSpec) :
    EngineState × Except PyErr ComprehensiveValidationReport :=
  if suggestions.length ≠ implementation_specs.length then
    (st, .error (.validationError "Suggestions and implementation specs count mismatch"))
  else
    let required := suggestions.length * allCriteria.length
    match runSuggestions st.existing_functions_db 0 st.validation_results 0
        (suggestions.zip implementation_specs) with
    | (results2, _, some e) =>
      ({ st with validation_results := results2 },
       .error (.validationError ("Comprehensive validation failed: " ++ e.message)))
    | (results2, completed, none) =>
      let st2 : EngineState := { st with validation_results := results2 }
      let report := generateComprehensiveReport st2 suggestions completed required
      if report.validation_coverage < 1 then
        (st2, .error (.validationError
          ("Comprehensive validation failed: Validation coverage " ++
           toString report.validation_coverage ++
           " below required 100%. Cannot proceed with incomplete validation.")))
      else
        (st2, .ok report)

/-- `ExistingFunction` dataclass of `api_capability_mapper.py` (lines 30-43),
restricted to the fields read by `_build_duplicate_detection_database` and
`check_for_duplicates` (`name`, `module_path`, `description`); the remaining
fields (signature, parameters, categories, ...) are never consulted by the
embedded functions. -/
structure ExistingFunction where
  name : String := ""
  module_path : String := ""
  description : String := ""
deriving DecidableEq, Repr

/-- The four lookup keys generated for one entity by
`_build_duplicate_detection_database` (api_capability_mapper.py lines
441-446): lowercase name, lowercase module path, name with underscores
removed, name with underscores replaced by spaces. -/
def entityKeys (f : ExistingFunction) : List String :=
  [lowerStr f.name, lowerStr f.module_path,
   lowerStr (pyReplaceChar f.name (Char.ofNat 95) ""), lowerStr (pyReplaceChar f.name (Char.ofNat 95) " ")]

/-- One `duplicate_db[key] = function` insertion attempt (lines 448-450):
`if key and key not in duplicate_db` — the key must be nonempty and absent
(first writer wins). The dict is modelled as an association list in Python
dict insertion order, with `List.lookup` as key lookup. -/
def dbInsertKey (db : List (String × ExistingFunction)) (k : String)
    (f : ExistingFunction) : List (String × ExistingFunction) :=
  if k ≠ "" ∧ (db.lookup k).isNone then db ++ [(k, f)] else db

/-- Insertion of all four keys of one entity, in key order. -/
def dbInsertEntity (db : List (String × ExistingFunction))
    (f : ExistingFunction) : List (String × ExistingFunction) :=
  (entityKeys f).foldl (fun d k => dbInsertKey d k f) db

/-- Embedding of `_build_duplicate_detection_database` (api_capability_mapper.py
lines 435-453): folds all entities, in list order, into the lookup table. -/
def buildDuplicateDetectionDatabase (funcs : List ExistingFunction) :
    List (String × ExistingFunction) :=
  funcs.foldl dbInsertEntity []

/-- One step of the `for key, existing_func in self.duplicate_detection_db.items()`
loop of `check_for_duplicates` (lines 497-505): symmetric substring match on
the key against the normalized candidate name, `continue`, otherwise the
description-similarity test at threshold `0.7`. -/
def dupScanStep (name_normalized desc_normalized : String)
    (acc : List ExistingFunction) (kf : String × ExistingFunction) :
    List ExistingFunction :=
  if pySubstr kf.1 name_normalized || pySubstr name_normalized kf.1 then
    acc ++ [kf.2]
  else if calculateTextSimilarity desc_normalized (lowerStr kf.2.description) > 7/10 then
    acc ++ [kf.2]
  else acc

/-- The result-deduplication loop of `check_for_duplicates` (lines 508-513):
keep the first occurrence of each entity name, preserving order. -/
def dedupByName (seen : List String) : List ExistingFunction → List ExistingFunction
  | [] => []
  | f :: rest =>
    if f.name ∈ seen then dedupByName seen rest
    else f :: dedupByName (f.name :: seen) rest

/-- Embedding of `check_for_duplicates` (api_capability_mapper.py lines
479-515). Notably the scan iterates over the items of
`self.duplicate_detection_db` — the keyed lookup table — not over the raw
`self.existing_functions` list. -/
def checkForDuplicates (duplicate_detection_db : List (String × ExistingFunction))
    (suggestion_name suggestion_description : String) : List ExistingFunction :=
  let name_normalized := pyReplaceChar (lowerStr suggestion_name) (Char.ofNat 95) " "
  let desc_normalized := lowerStr suggestion_description
  let potential_duplicates :=
    duplicate_detection_db.foldl (dupScanStep name_normalized desc_normalized) []
  dedupByName [] potential_duplicates

/-- The inner `if union else 0.0` guard of `_calculate_text_similarity` is
unreachable: in the branch where both token sets are nonempty, so is their
union. This gives a guard-free description of the similarity. -/
theorem calculateTextSimilarity_def (a b : String) :
    calculateTextSimilarity a b =
      if tokens a = ∅ ∨ tokens b = ∅ then 0
      else ((tokens a ∩ tokens b).card : ℚ) / ((tokens a ∪ tokens b).card : ℚ) := by
  unfold calculateTextSimilarity
  by_cases h : tokens a = ∅ ∨ tokens b = ∅
  · simp [h]
  · have ha : tokens a ≠ ∅ := fun hh => h (Or.inl hh)
    have hu : tokens a ∪ tokens b ≠ ∅ := by
      intro hh
      exact ha (Finset.union_eq_empty.mp hh).1
    simp [h, hu]

theorem calculateTextSimilarity_nonneg (a b : String) :
    0 ≤ calculateTextSimilarity a b := by
  rw [calculateTextSimilarity_def]
  split
  · exact le_refl 0
  · positivity

theorem calculateTextSimilarity_le_one (a b : String) :
    calculateTextSimilarity a b ≤ 1 := by
  rw [calculateTextSimilarity_def]
  split
  · exact zero_le_one
  · rename_i h
    have ha : tokens a ≠ ∅ := fun hh => h (Or.inl hh)
    have hcard : 0 < ((tokens a ∪ tokens b).card : ℚ) := by
      have : (tokens a ∪ tokens b).Nonempty := by
        rcases Finset.nonempty_iff_ne_empty.mpr ha with ⟨x, hx⟩
        exact ⟨x, Finset.mem_union_left _ hx⟩
      exact_mod_cast Finset.card_pos.mpr this
    rw [div_le_one hcard]
    exact_mod_cast Finset.card_le_card (Finset.inter_subset_union)

theorem calculateTextSimilarity_eq_one_iff (a b : String) :
    calculateTextSimilarity a b = 1 ↔ (tokens a = tokens b ∧ tokens a ≠ ∅) := by
  rw [calculateTextSimilarity_def]
  by_cases h : tokens a = ∅ ∨ tokens b = ∅
  · simp only [h, if_true]
    constructor
    · intro h01
      exact absurd h01 (by norm_num)
    · rintro ⟨hab, hane⟩
      rcases h with h | h
      · exact absurd h hane
      · exact absurd (hab.trans h) hane
  · have ha : tokens a ≠ ∅ := fun hh => h (Or.inl hh)
    have hb : tokens b ≠ ∅ := fun hh => h (Or.inr hh)
    have hu : ((tokens a ∪ tokens b).card : ℚ) ≠ 0 := by
      have : (tokens a ∪ tokens b).Nonempty := by
        rcases Finset.nonempty_iff_ne_empty.mpr ha with ⟨x, hx⟩
        exact ⟨x, Finset.mem_union_left _ hx⟩
      have := Finset.card_pos.mpr this
      exact_mod_cast Nat.pos_iff_ne_zero.mp this
    simp only [h, if_false]
    rw [div_eq_one_iff_eq hu, Nat.cast_inj]
    constructor
    · intro hcard
      have hsub : tokens a ∩ tokens b = tokens a ∪ tokens b :=
        Finset.eq_of_subset_of_card_le Finset.inter_subset_union (le_of_eq hcard.symm)
      have h1 : tokens a ⊆ tokens b := by
        intro x hx
        have : x ∈ tokens a ∩ tokens b := by
          rw [hsub]
          exact Finset.mem_union_left _ hx
        exact (Finset.mem_inter.mp this).2
      have h2 : tokens b ⊆ tokens a := by
        intro x hx
        have : x ∈ tokens a ∩ tokens b := by
          rw [hsub]
          exact Finset.mem_union_right _ hx
        exact (Finset.mem_inter.mp this).1
      exact ⟨Finset.Subset.antisymm h1 h2, ha⟩
    · rintro ⟨hab, -⟩
      rw [hab, Finset.inter_self, Finset.union_self]

theorem pyMax_eq_max (a b : ℚ) : pyMax a b = max a b := by
  unfold pyMax
  split
  · rename_i h
    exact (max_eq_right (le_of_lt h)).symm
  · rename_i h
    exact (max_eq_left (not_lt.mp h)).symm

theorem pyListMax_eq_foldr (l : List ℚ) (a : ℚ) (ha : 0 ≤ a)
    (hl : ∀ x ∈ l, 0 ≤ x) : pyListMax a l = max a (l.foldr max 0) := by
  induction l generalizing a with
  | nil =>
    simp [pyListMax, max_eq_left ha]
  | cons b t ih =>
    have hb : 0 ≤ b := hl b (List.mem_cons_self b t)
    have ht : ∀ x ∈ t, 0 ≤ x := fun x hx => hl x (List.mem_cons_of_mem b hx)
    simp only [pyListMax, pyMax_eq_max]
    rw [ih (max a b) (le_trans ha (le_max_left a b)) ht, List.foldr_cons, max_assoc]

theorem maxOrZero_eq_foldr (l : List ℚ) (hl : ∀ x ∈ l, 0 ≤ x) :
    maxOrZero l = l.foldr max 0 := by
  cases l with
  | nil => rfl
  | cons a t =>
    have ha : 0 ≤ a := hl a (List.mem_cons_self a t)
    have ht : ∀ x ∈ t, 0 ≤ x := fun x hx => hl x (List.mem_cons_of_mem a hx)
    simp only [maxOrZero, List.foldr_cons]
    exact pyListMax_eq_foldr t a ha ht

theorem overallSimilarity_nonneg (s : Suggestion) (f : ExistingFunc) :
    0 ≤ overallSimilarity s f := by
  unfold overallSimilarity
  have h1 := calculateTextSimilarity_nonneg (lowerStr s.name) (lowerStr f.name)
  have h2 := calculateTextSimilarity_nonneg (lowerStr s.description) (lowerStr f.description)
  linarith

theorem overallSimilarity_le_one (s : Suggestion) (f : ExistingFunc) :
    overallSimilarity s f ≤ 1 := by
  unfold overallSimilarity
  have h1 := calculateTextSimilarity_le_one (lowerStr s.name) (lowerStr f.name)
  have h2 := calculateTextSimilarity_le_one (lowerStr s.description) (lowerStr f.description)
  linarith

theorem foldr_max_nonneg (l : List ℚ) : 0 ≤ l.foldr max 0 := by
  induction l with
  | nil => simp
  | cons a t ih => simp only [List.foldr_cons]; exact le_trans ih (le_max_right a _)

/-- C9: `_calculate_text_similarity(a, b)` equals 0 when either lowercased
whitespace-token set is empty and otherwise equals the Jaccard index
|intersection| / |union| of the two token sets; the result always lies in
[0, 1] and equals exactly 1 if and only if the two token sets are identical
and non-empty. -/
theorem text_similarity_is_jaccard (a b : String) :
    calculateTextSimilarity a b =
      (if tokens a = ∅ ∨ tokens b = ∅ then 0
       else ((tokens a ∩ tokens b).card : ℚ) / ((tokens a ∪ tokens b).card : ℚ))
    ∧ 0 ≤ calculateTextSimilarity a b
    ∧ calculateTextSimilarity a b ≤ 1
    ∧ (calculateTextSimilarity a b = 1 ↔ (tokens a = tokens b ∧ tokens a ≠ ∅)) :=
  ⟨calculateTextSimilarity_def a b, calculateTextSimilarity_nonneg a b,
   calculateTextSimilarity_le_one a b, calculateTextSimilarity_eq_one_iff a b⟩

/-- C3: with the `existing_functions_db` attribute at its `getattr` default
`[]` — and no code in the repository ever assigns that attribute — the
duplicate-check criterion scores every suggestion 1.0 with status PASSED. -/
theorem duplicate_check_vacuous_on_default_db (sugg : Suggestion) (sid : String) :
    (validateDuplicateCheck [] sugg sid).score = 1 ∧
    (validateDuplicateCheck [] sugg sid).status = ValidationStatus.passed := by
  simp only [validateDuplicateCheck, List.map_nil, List.filter_nil, maxOrZero, pyMax]
  norm_num

/-- C5: `_validate_duplicate_check` returns score `max(0, 1 - M)` where `M`
is the maximum over all known entities of the per-entity similarity between
the candidate and that entity (0 when there are none), and the status is
PASSED exactly when `M = 0`. -/
theorem duplicate_check_score_formula (existing : List ExistingFunc)
    (sugg : Suggestion) (sid : String) :
    (validateDuplicateCheck existing sugg sid).score
        = max 0 (1 - (existing.map (overallSimilarity sugg)).foldr max 0)
    ∧ ((validateDuplicateCheck existing sugg sid).status = ValidationStatus.passed
        ↔ (existing.map (overallSimilarity sugg)).foldr max 0 = 0) := by
  have hnn : ∀ x ∈ existing.map (overallSimilarity sugg), 0 ≤ x := by
    intro x hx
    rcases List.mem_map.mp hx with ⟨f, -, rfl⟩
    exact overallSimilarity_nonneg sugg f
  have hM : maxOrZero (existing.map (overallSimilarity sugg))
      = (existing.map (overallSimilarity sugg)).foldr max 0 :=
    maxOrZero_eq_foldr _ hnn
  have hMnn : 0 ≤ (existing.map (overallSimilarity sugg)).foldr max 0 :=
    foldr_max_nonneg _
  simp only [validateDuplicateCheck, hM, pyMax_eq_max]
  refine ⟨trivial, ?_⟩
  by_cases h0 : (existing.map (overallSimilarity sugg)).foldr max 0 = 0
  · rw [h0]
    norm_num
  · have hpos : 0 < (existing.map (overallSimilarity sugg)).foldr max 0 :=
      lt_of_le_of_ne hMnn (Ne.symm h0)
    have hlt : max 0 (1 - (existing.map (overallSimilarity sugg)).foldr max 0) < 1 := by
      apply max_lt <;> linarith
    rw [if_neg (not_le.mpr hlt)]
    simp [h0]

/-- The candidate of the exact-duplicate scenario: name `"filter"`
(lowercase, no spaces), with a free description. -/
def filterCandidate (desc : String) : Suggestion :=
  { name := "filter", description := desc }

/-- The registry entry of the exact-duplicate scenario: entity named
`"Filter"`, with a free description. -/
def filterEntity (desc : String) : ExistingFunc :=
  { name := "Filter", description := desc }

unseal Rat.mul Rat.add Rat.sub Rat.inv in
theorem filter_name_similarity_one :
    calculateTextSimilarity (lowerStr "filter") (lowerStr "Filter") = 1 := by
  decide

unseal Rat.mul Rat.add Rat.sub Rat.inv in
/-- C4 counterexample: validating the candidate named `"filter"` (with empty
description) against the database entry named `"Filter"` (with empty
description) yields score 1/2, not the claimed 0.0 — the name similarity of
1 is averaged with the description similarity of 0 — though the status is
indeed FAILED. -/
theorem filter_duplicate_score_half :
    (validateDuplicateCheck [filterEntity ""] (filterCandidate "") "s0").score = 1/2
    ∧ (validateDuplicateCheck [filterEntity ""] (filterCandidate "") "s0").score ≠ 0
    ∧ (validateDuplicateCheck [filterEntity ""] (filterCandidate "") "s0").status
        = ValidationStatus.failed := by
  refine ⟨?_, ?_, ?_⟩ <;> decide

theorem maxOrZero_singleton (x : ℚ) : maxOrZero [x] = x := rfl

/-- C4 amended: for the candidate named `"filter"` against the single entity
named `"Filter"`, whatever the two descriptions, the duplicate check always
FAILS, and its score is `(1 - descriptionSimilarity) / 2` — it equals 0.0
only when the two descriptions have identical non-empty token sets, and is
1/2 when, e.g., both descriptions are empty. -/
theorem filter_duplicate_general (d1 d2 sid : String) :
    (validateDuplicateCheck [filterEntity d2] (filterCandidate d1) sid).status
        = ValidationStatus.failed
    ∧ (validateDuplicateCheck [filterEntity d2] (filterCandidate d1) sid).score
        = (1 - calculateTextSimilarity (lowerStr d1) (lowerStr d2)) / 2 := by
  have hds0 : 0 ≤ calculateTextSimilarity (lowerStr d1) (lowerStr d2) :=
    calculateTextSimilarity_nonneg _ _
  have hds1 : calculateTextSimilarity (lowerStr d1) (lowerStr d2) ≤ 1 :=
    calculateTextSimilarity_le_one _ _
  have hov : overallSimilarity (filterCandidate d1) (filterEntity d2)
      = (1 + calculateTextSimilarity (lowerStr d1) (lowerStr d2)) / 2 := by
    unfold overallSimilarity
    show (calculateTextSimilarity (lowerStr "filter") (lowerStr "Filter") + _) / 2 = _
    rw [filter_name_similarity_one]
    rfl
  simp only [validateDuplicateCheck, List.map_cons, List.map_nil, hov,
    maxOrZero_singleton, pyMax_eq_max]
  have hscore : max 0 (1 - (1 + calculateTextSimilarity (lowerStr d1) (lowerStr d2)) / 2)
      = (1 - calculateTextSimilarity (lowerStr d1) (lowerStr d2)) / 2 := by
    rw [max_eq_right (by linarith)]
    ring
  have hlt : max 0 (1 - (1 + calculateTextSimilarity (lowerStr d1) (lowerStr d2)) / 2) < 1 := by
    rw [hscore]
    linarith
  rw [if_neg (not_le.mpr hlt)]
  exact ⟨rfl, hscore⟩

/-- A concrete well-formed suggestion used for witnesses and failing-input
evaluations. -/
def demoSuggestion : Suggestion := { name := "Sample", description := "sample tool" }

/-- A concrete implementation spec (all fields at their defaults). -/
def demoSpec : ImplementationSpec := {}

/-- C1 (failing-input evaluation): on the empty batch the code computes
`validation_coverage = 0` — not the 1.0 the specification assigns to the
vacuous batch, because `completed / required` is replaced by `0.0` when
`required == 0` — and `validate_comprehensive_coverage` consequently raises
`ValidationError` instead of returning a report. -/
theorem empty_batch_coverage_zero_and_raises :
    (generateComprehensiveReport initState [] 0 0).validation_coverage = 0
    ∧ ∃ m, (validateComprehensiveCoverage initState [] []).2
        = Except.error (PyErr.validationError m) :=
  ⟨rfl, ⟨_, rfl⟩⟩

/-- C2: for every engine state and every non-empty batch (with specs of
matching length), `validate_comprehensive_coverage` raises `ValidationError`
wrapping the `AttributeError` produced by the dispatch of the fourth
criterion (IMPLEMENTATION_COMPLEXITY) to the missing method
`_validate_implementation_complexity`; no report is returned. -/
theorem nonempty_batch_always_raises (st : EngineState) (s : Suggestion)
    (ss : List Suggestion) (specs : List ImplementationSpec)
    (h : (s :: ss).length = specs.length) :
    (validateComprehensiveCoverage st (s :: ss) specs).2
      = Except.error (PyErr.validationError ("Comprehensive validation failed: "
          ++ missingMethodMsg "_validate_implementation_complexity")) := by
  cases specs with
  | nil => simp at h
  | cons sp specs2 =>
    rw [validateComprehensiveCoverage, if_neg (not_not_intro h)]
    simp only [List.zip_cons_cons, runSuggestions, allCriteria, runCriteria,
      validateSingleCriterion, PyErr.message]

theorem nonempty_batch_always_raises_witness :
    ([demoSuggestion].length = [demoSpec].length)
    ∧ (validateComprehensiveCoverage initState [demoSuggestion] [demoSpec]).2
        = Except.error (PyErr.validationError ("Comprehensive validation failed: "
            ++ missingMethodMsg "_validate_implementation_complexity")) :=
  ⟨rfl, nonempty_batch_always_raises initState demoSuggestion [] [demoSpec] rfl⟩

unseal Rat.mul Rat.add Rat.sub Rat.inv in
/-- C7 (failing-input evaluation): on a batch of one suggestion, the
exception raised while evaluating the fourth criterion
(IMPLEMENTATION_COMPLEXITY) aborts the whole batch: only the three earlier
criteria leave ValidationResults (none is recorded for the failing pair) and
the call raises `ValidationError` instead of continuing with the remaining
(candidate, criterion) pairs. -/
theorem single_criterion_failure_aborts_batch :
    ((validateComprehensiveCoverage initState [demoSuggestion] [demoSpec]).1.validation_results.map
        (fun r => r.criteria))
      = [ValidationCriteria.technicalFeasibility, ValidationCriteria.duplicateCheck,
         ValidationCriteria.aecValue]
    ∧ ∃ m, (validateComprehensiveCoverage initState [demoSuggestion] [demoSpec]).2
        = Except.error (PyErr.validationError m) :=
  ⟨by decide, ⟨_, rfl⟩⟩

theorem runCriteria_acc_append (db : List ExistingFunc) (s : Suggestion)
    (spec : ImplementationSpec) (sid : String) :
    ∀ (cs : List ValidationCriteria) (acc : List ValidationResult) (n : Nat),
      ∃ t, (runCriteria db s spec sid acc n cs).1 = acc ++ t := by
  intro cs
  induction cs with
  | nil =>
    intro acc n
    exact ⟨[], by simp [runCriteria]⟩
  | cons c rest ih =>
    intro acc n
    cases hv : validateSingleCriterion db s spec c sid with
    | ok r =>
      rcases ih (acc ++ [r]) (n + 1) with ⟨t, ht⟩
      refine ⟨[r] ++ t, ?_⟩
      simp only [runCriteria, hv, ht, List.append_assoc]
    | error e =>
      exact ⟨[], by simp [runCriteria, hv]⟩

theorem runSuggestions_acc_append (db : List ExistingFunc) :
    ∀ (l : List (Suggestion × ImplementationSpec)) (i : Nat)
      (acc : List ValidationResult) (n : Nat),
      ∃ t, (runSuggestions db i acc n l).1 = acc ++ t := by
  intro l
  induction l with
  | nil =>
    intro i acc n
    exact ⟨[], by simp [runSuggestions]⟩
  | cons p rest ih =>
    intro i acc n
    rcases p with ⟨s, spec⟩
    rcases hrc : runCriteria db s spec (s.id.getD ("suggestion_" ++ toString i)) acc n allCriteria
      with ⟨acc2, n2, err⟩
    rcases runCriteria_acc_append db s spec (s.id.getD ("suggestion_" ++ toString i))
      allCriteria acc n with ⟨t1, ht1⟩
    rw [hrc] at ht1
    simp only at ht1
    cases err with
    | none =>
      rcases ih (i + 1) acc2 n2 with ⟨t2, ht2⟩
      refine ⟨t1 ++ t2, ?_⟩
      simp only [runSuggestions, hrc]
      rw [ht2, ht1, List.append_assoc]
    | some e =>
      refine ⟨t1, ?_⟩
      simp only [runSuggestions, hrc, ht1]

unseal Rat.mul Rat.add Rat.sub Rat.inv in
/-- C10 counterexample: report generation is not a function of the call's
own inputs alone. With identical arguments (no suggestions, `completed = 0`,
`required = 0`), `_generate_comprehensive_report` run on an engine that
already processed an earlier batch (here, a one-suggestion batch whose
validation aborted after three results) produces a different report — the
earlier batch's three accumulated results appear in its result list — than
the same call on a freshly constructed engine. -/
theorem report_depends_on_prior_state :
    (generateComprehensiveReport
        ((validateComprehensiveCoverage initState [demoSuggestion] [demoSpec]).1)
        [] 0 0).validation_results
      ≠ (generateComprehensiveReport initState [] 0 0).validation_results := by
  decide

/-- C10 amended: the engine is stateful between batches. The report built by
`_generate_comprehensive_report` carries the engine-lifetime
`validation_results` list — whatever accumulated there from earlier batches —
and `validate_comprehensive_coverage` only ever appends to that list, never
clearing it. -/
theorem report_reads_engine_lifetime_results (st : EngineState)
    (suggestions : List Suggestion) (specs : List ImplementationSpec)
    (completed required : Nat) :
    (generateComprehensiveReport st suggestions completed required).validation_results
        = st.validation_results
    ∧ ∃ tail, (validateComprehensiveCoverage st suggestions specs).1.validation_results
        = st.validation_results ++ tail := by
  constructor
  · rfl
  · by_cases hlen : suggestions.length ≠ specs.length
    · refine ⟨[], ?_⟩
      rw [validateComprehensiveCoverage, if_pos hlen]
      simp
    · rcases hrun : runSuggestions st.existing_functions_db 0 st.validation_results 0
        (suggestions.zip specs) with ⟨results2, completed2, err⟩
      rcases runSuggestions_acc_append st.existing_functions_db (suggestions.zip specs)
        0 st.validation_results 0 with ⟨t, ht⟩
      rw [hrun] at ht
      simp only at ht
      refine ⟨t, ?_⟩
      rw [validateComprehensiveCoverage, if_neg hlen]
      cases err with
      | some e => simp only [hrun, ht]
      | none =>
        simp only [hrun]
        split <;> simpa using ht

/-- First of two entities sharing every lookup key (same name, same module
path): the first writer claims all four keys. -/
def shadowEntityA : ExistingFunction :=
  { name := "filter", module_path := "m", description := "alpha beta" }

/-- Second entity with the same name and module path as `shadowEntityA` but a
different description: all four of its candidate keys are already taken, so
the build step stores it under no key at all. -/
def shadowEntityB : ExistingFunction :=
  { name := "filter", module_path := "m", description := "match me please now" }

unseal Rat.mul Rat.add Rat.sub Rat.inv in
/-- C6 counterexample: `check_for_duplicates` scans only the keyed lookup
table, not the raw entity list. `shadowEntityB` is fully shadowed by
`shadowEntityA` at build time; its description is identical to the candidate
description (similarity 1 > 0.7), yet the returned match list is empty. -/
theorem shadowed_entity_missed_by_scan :
    calculateTextSimilarity (lowerStr "match me please now")
        (lowerStr shadowEntityB.description) > 7/10
    ∧ shadowEntityB ∉ checkForDuplicates
        (buildDuplicateDetectionDatabase [shadowEntityA, shadowEntityB])
        "zzz" "match me please now"
    ∧ checkForDuplicates (buildDuplicateDetectionDatabase [shadowEntityA, shadowEntityB])
        "zzz" "match me please now" = [] := by
  refine ⟨?_, ?_, ?_⟩ <;> decide

theorem dupScanStep_sub (nn dn : String) (acc : List ExistingFunction)
    (kf : String × ExistingFunction) : acc ⊆ dupScanStep nn dn acc kf := by
  unfold dupScanStep
  split
  · exact List.subset_append_left _ _
  · split
    · exact List.subset_append_left _ _
    · exact List.Subset.refl _

theorem foldl_dupScanStep_sub (nn dn : String) :
    ∀ (l : List (String × ExistingFunction)) (acc : List ExistingFunction),
      acc ⊆ l.foldl (dupScanStep nn dn) acc := by
  intro l
  induction l with
  | nil => intro acc; exact List.Subset.refl _
  | cons kf rest ih =>
    intro acc
    exact List.Subset.trans (dupScanStep_sub nn dn acc kf) (ih (dupScanStep nn dn acc kf))

theorem dupScanStep_mem_of_sim (nn dn : String) (acc : List ExistingFunction)
    (kf : String × ExistingFunction)
    (h : calculateTextSimilarity dn (lowerStr kf.2.description) > 7/10) :
    kf.2 ∈ dupScanStep nn dn acc kf := by
  unfold dupScanStep
  rw [if_pos h]
  split
  · exact List.mem_append_right _ (List.mem_singleton.mpr rfl)
  · exact List.mem_append_right _ (List.mem_singleton.mpr rfl)

theorem mem_foldl_dupScanStep (nn dn : String) (k : String) (f : ExistingFunction) :
    ∀ (l : List (String × ExistingFunction)) (acc : List ExistingFunction),
      (k, f) ∈ l →
      calculateTextSimilarity dn (lowerStr f.description) > 7/10 →
      f ∈ l.foldl (dupScanStep nn dn) acc := by
  intro l
  induction l with
  | nil => intro acc h; exact absurd h (List.not_mem_nil _)
  | cons kf rest ih =>
    intro acc hmem hsim
    rcases List.mem_cons.mp hmem with heq | htail
    · have h2 : calculateTextSimilarity dn (lowerStr kf.2.description) > 7/10 := by
        rw [← heq]
        exact hsim
      have hstep := dupScanStep_mem_of_sim nn dn acc kf h2
      have hf : kf.2 = f := by rw [← heq]
      rw [hf] at hstep
      exact foldl_dupScanStep_sub nn dn rest (dupScanStep nn dn acc kf) hstep
    · exact ih (dupScanStep nn dn acc kf) htail hsim

theorem dedupByName_covers (f : ExistingFunction) :
    ∀ (l : List ExistingFunction) (seen : List String), f ∈ l →
      (∃ g ∈ dedupByName seen l, g.name = f.name) ∨ f.name ∈ seen := by
  intro l
  induction l with
  | nil => intro seen h; exact absurd h (List.not_mem_nil _)
  | cons g rest ih =>
    intro seen hmem
    rcases List.mem_cons.mp hmem with heq | htail
    · subst heq
      by_cases hseen : f.name ∈ seen
      · exact Or.inr hseen
      · refine Or.inl ⟨f, ?_, rfl⟩
        unfold dedupByName
        rw [if_neg hseen]
        exact List.mem_cons_self _ _
    · by_cases hseen : g.name ∈ seen
      · unfold dedupByName
        rw [if_pos hseen]
        exact ih seen htail
      · unfold dedupByName
        rw [if_neg hseen]
        rcases ih (g.name :: seen) htail with ⟨g2, hg2, hname⟩ | hin
        · exact Or.inl ⟨g2, List.mem_cons_of_mem _ hg2, hname⟩
        · rcases List.mem_cons.mp hin with hfg | hfseen
          · exact Or.inl ⟨g, List.mem_cons_self _ _, hfg.symm⟩
          · exact Or.inr hfseen

/-- C6 amended: the description-similarity scan of `check_for_duplicates`
runs over the key–entity pairs of the lookup table (not the raw entity list):
every entity that is the stored value of at least one key and whose
description has similarity above 0.7 with the candidate description is
reported in the returned match list (up to deduplication by name); entities
all of whose keys were shadowed at build time are skipped. -/
theorem keyed_similar_entity_reported (db : List (String × ExistingFunction))
    (sname sdesc k : String) (f : ExistingFunction)
    (hmem : (k, f) ∈ db)
    (hsim : calculateTextSimilarity (lowerStr sdesc) (lowerStr f.description) > 7/10) :
    ∃ g ∈ checkForDuplicates db sname sdesc, g.name = f.name := by
  unfold checkForDuplicates
  have hpot : f ∈ db.foldl
      (dupScanStep (pyReplaceChar (lowerStr sname) (Char.ofNat 95) " ") (lowerStr sdesc)) [] :=
    mem_foldl_dupScanStep _ _ k f db [] hmem hsim
  rcases dedupByName_covers f _ [] hpot with h | h
  · exact h
  · exact absurd h (List.not_mem_nil _)

unseal Rat.mul Rat.add Rat.sub Rat.inv in
theorem keyed_similar_entity_reported_witness :
    (("k", shadowEntityB) ∈ [("k", shadowEntityB)])
    ∧ calculateTextSimilarity (lowerStr "match me please now")
        (lowerStr shadowEntityB.description) > 7/10
    ∧ ∃ g ∈ checkForDuplicates [("k", shadowEntityB)] "zzz" "match me please now",
        g.name = shadowEntityB.name :=
  ⟨List.mem_singleton.mpr rfl, by decide,
   keyed_similar_entity_reported [("k", shadowEntityB)] "zzz" "match me please now" "k"
     shadowEntityB (List.mem_singleton.mpr rfl) (by decide)⟩

/-- C8 counterexample: an entity whose every candidate key collides with an
earlier entity contributes no key at all. `shadowEntityB` (same lowercase
name and module path as `shadowEntityA`) is the stored value of zero keys in
the built table — not of "at least 2 distinct keys". -/
theorem shadowed_entity_stores_no_key :
    ((buildDuplicateDetectionDatabase [shadowEntityA, shadowEntityB]).filter
        (fun kv => kv.2 == shadowEntityB)).length = 0
    ∧ shadowEntityA ≠ shadowEntityB
    ∧ shadowEntityB ∈ [shadowEntityA, shadowEntityB] := by
  refine ⟨?_, ?_, ?_⟩ <;> decide

theorem lookup_append_left_of_isSome {k : String} :
    ∀ (db l : List (String × ExistingFunction)),
      (db.lookup k).isSome → ((db ++ l).lookup k) = db.lookup k := by
  intro db l
  induction db with
  | nil => intro h; simp [List.lookup] at h
  | cons a t ih =>
    intro h
    rcases a with ⟨k2, f2⟩
    by_cases hk : k = k2
    · simp [List.lookup, hk]
    · have hbeq : (k == k2) = false := beq_eq_false_iff_ne.mpr hk
      simp only [List.cons_append, List.lookup, hbeq] at h ⊢
      exact ih h

theorem lookup_append_right_of_none {k : String} :
    ∀ (db l : List (String × ExistingFunction)),
      db.lookup k = none → ((db ++ l).lookup k) = l.lookup k := by
  intro db l
  induction db with
  | nil => intro _; simp
  | cons a t ih =>
    intro h
    rcases a with ⟨k2, f2⟩
    by_cases hk : k = k2
    · have hbeq : (k == k2) = true := beq_iff_eq.mpr hk
      simp only [List.lookup, hbeq] at h
      exact absurd h (by simp)
    · have hbeq : (k == k2) = false := beq_eq_false_iff_ne.mpr hk
      simp only [List.cons_append, List.lookup, hbeq] at h ⊢
      exact ih h

theorem dbInsertKey_persists {k : String}
    (db : List (String × ExistingFunction)) (k2 : String) (f : ExistingFunction)
    (h : (db.lookup k).isSome) : ((dbInsertKey db k2 f).lookup k).isSome := by
  unfold dbInsertKey
  split
  · rw [lookup_append_left_of_isSome db [(k2, f)] h]
    exact h
  · exact h

theorem dbInsertKey_self (db : List (String × ExistingFunction)) (k : String)
    (f : ExistingFunction) (hne : k ≠ "") :
    ((dbInsertKey db k f).lookup k).isSome := by
  unfold dbInsertKey
  split
  · rename_i hc
    have hnone : db.lookup k = none := Option.isNone_iff_eq_none.mp hc.2
    rw [lookup_append_right_of_none db [(k, f)] hnone]
    simp [List.lookup]
  · rename_i hc
    rcases not_and_or.mp hc with h1 | h2
    · exact absurd hne h1
    · have hn2 : ¬(db.lookup k = none) := fun hn =>
        h2 (Option.isNone_iff_eq_none.mpr hn)
      exact Option.isSome_iff_ne_none.mpr hn2

theorem foldl_insertKey_persists {k : String} (f : ExistingFunction) :
    ∀ (ks : List String) (db : List (String × ExistingFunction)),
      (db.lookup k).isSome →
      ((ks.foldl (fun d k2 => dbInsertKey d k2 f) db).lookup k).isSome := by
  intro ks
  induction ks with
  | nil => intro db h; exact h
  | cons k2 rest ih =>
    intro db h
    exact ih (dbInsertKey db k2 f) (dbInsertKey_persists db k2 f h)

theorem dbInsertEntity_gives_keys (db : List (String × ExistingFunction))
    (f : ExistingFunction) (k : String) (hk : k ∈ entityKeys f) (hne : k ≠ "") :
    ((dbInsertEntity db f).lookup k).isSome := by
  unfold dbInsertEntity
  have hgen : ∀ (ks : List String) (db2 : List (String × ExistingFunction)),
      k ∈ ks → ((ks.foldl (fun d k2 => dbInsertKey d k2 f) db2).lookup k).isSome := by
    intro ks
    induction ks with
    | nil => intro db2 h; exact absurd h (List.not_mem_nil _)
    | cons k2 rest ih =>
      intro db2 hmem
      rcases List.mem_cons.mp hmem with heq | htail
      · subst heq
        exact foldl_insertKey_persists f rest _ (dbInsertKey_self db2 k f hne)
      · exact ih (dbInsertKey db2 k2 f) htail
  exact hgen (entityKeys f) db hk

theorem dbInsertEntity_persists {k : String}
    (db : List (String × ExistingFunction)) (g : ExistingFunction)
    (h : (db.lookup k).isSome) : ((dbInsertEntity db g).lookup k).isSome :=
  foldl_insertKey_persists g (entityKeys g) db h

theorem foldl_insertEntity_persists {k : String} :
    ∀ (l : List ExistingFunction) (db : List (String × ExistingFunction)),
      (db.lookup k).isSome → ((l.foldl dbInsertEntity db).lookup k).isSome := by
  intro l
  induction l with
  | nil => intro db h; exact h
  | cons g rest ih =>
    intro db h
    exact ih (dbInsertEntity db g) (dbInsertEntity_persists db g h)

/-- C8 amended: what the build step guarantees is not "at least 2 keys per
entity" but key totality with first-writer-wins: every non-empty candidate
key of every entity in the input list is present in the built lookup table
(possibly mapping to an earlier entity that generated the same key); an
entity all of whose keys are empty or already claimed — e.g. a repeated
name/module-path — is itself the stored value of no key. -/
theorem every_nonempty_key_in_table (fs : List ExistingFunction)
    (f : ExistingFunction) (hf : f ∈ fs) (k : String)
    (hk : k ∈ entityKeys f) (hne : k ≠ "") :
    ((buildDuplicateDetectionDatabase fs).lookup k).isSome := by
  unfold buildDuplicateDetectionDatabase
  have hgen : ∀ (l : List ExistingFunction) (db : List (String × ExistingFunction)),
      f ∈ l → ((l.foldl dbInsertEntity db).lookup k).isSome := by
    intro l
    induction l with
    | nil => intro db h; exact absurd h (List.not_mem_nil _)
    | cons g rest ih =>
      intro db hmem
      rcases List.mem_cons.mp hmem with heq | htail
      · subst heq
        exact foldl_insertEntity_persists rest (dbInsertEntity db f)
          (dbInsertEntity_gives_keys db f k hk hne)
      · exact ih (dbInsertEntity db g) htail
  exact hgen fs [] hf

theorem every_nonempty_key_in_table_witness :
    (shadowEntityA ∈ [shadowEntityA, shadowEntityB])
    ∧ ("filter" ∈ entityKeys shadowEntityA)
    ∧ ("filter" ≠ "")
    ∧ ((buildDuplicateDetectionDatabase [shadowEntityA, shadowEntityB]).lookup "filter").isSome :=
  ⟨List.mem_cons_self _ _, by decide, by decide,
   every_nonempty_key_in_table [shadowEntityA, shadowEntityB] shadowEntityA
     (List.mem_cons_self _ _) "filter" (by decide) (by decide)⟩
